import Mathlib

/-!
# Verification of the leisaac assemble-sandwich predicates and camera tooling

Shallow embedding of the repository's algorithmic core:

* `task_done` — the stack-success evaluator from
  `source/leisaac/leisaac/tasks/assemble_sandwich/mdp/terminations.py`;
* `ingredient_grasped` — the grasp detector from
  `source/leisaac/leisaac/tasks/assemble_sandwich/mdp/observations.py`;
* `display_camera_feeds` / `export_camera_data` — the HDF5 camera viewer from
  `scripts/tools/view_camera_data.py`.

Scalars are modelled as rationals (the source uses floating point; all the
thresholds and test inputs here are exactly representable).  A batch of N
parallel environment instances is modelled as a list of per-instance
snapshots; the vectorized torch operations act independently per instance,
so the batched functions are `List.map` over a per-instance function, with
the `test_mode` branch producing `List.replicate` like `torch.ones(num_envs)`.
-/

namespace Leisaac

/-- A 3-vector of rational scalars (world-frame position or linear velocity). -/
structure Vec3 where
  x : ℚ
  y : ℚ
  z : ℚ
  deriving DecidableEq, Repr

/-- Componentwise difference, as in `ingredient_pos - end_effector_pos`. -/
def Vec3.sub (a b : Vec3) : Vec3 :=
  ⟨a.x - b.x, a.y - b.y, a.z - b.z⟩

/-- Squared Euclidean norm of a 3-vector. -/
def sqNorm3 (v : Vec3) : ℚ :=
  v.x ^ 2 + v.y ^ 2 + v.z ^ 2

/-- Squared Euclidean norm of a planar (x, y) vector. -/
def sqNorm2 (x y : ℚ) : ℚ :=
  x ^ 2 + y ^ 2

/-- `torch.norm(v) < t`, i.e. the Euclidean norm comparison `‖v‖ < t`, stated
over the rationals without square roots: since `‖v‖ ≥ 0`, `‖v‖ < t` holds
exactly when `0 < t` and `‖v‖² < t²`.  This is the exact characterization,
not an approximation. -/
def normLt3 (v : Vec3) (t : ℚ) : Bool :=
  decide (0 < t ∧ sqNorm3 v < t ^ 2)

/-- Planar variant of `normLt3`: `‖(x, y)‖ < t`. -/
def normLt2 (x y t : ℚ) : Bool :=
  decide (0 < t ∧ sqNorm2 x y < t ^ 2)

/-- Per-instance state of one rigid object: `data.root_pos_w` and
`data.root_lin_vel_w`. -/
structure RigidObjectState where
  pos : Vec3
  vel : Vec3
  deriving DecidableEq, Repr

/-- Per-instance snapshot of the five scene objects read by `task_done`. -/
structure SandwichScene where
  plate : RigidObjectState
  bread_slice_1 : RigidObjectState
  cheese_slice : RigidObjectState
  patty : RigidObjectState
  bread_slice_2 : RigidObjectState
  deriving DecidableEq, Repr

/-- `bread_1_height = bread_1_pos[:, 2] - plate_pos[:, 2]` (one instance). -/
def bread_1_height (s : SandwichScene) : ℚ :=
  s.bread_slice_1.pos.z - s.plate.pos.z

/-- `cheese_height = cheese_pos[:, 2] - plate_pos[:, 2]` (one instance). -/
def cheese_height (s : SandwichScene) : ℚ :=
  s.cheese_slice.pos.z - s.plate.pos.z

/-- `patty_height = patty_pos[:, 2] - plate_pos[:, 2]` (one instance). -/
def patty_height (s : SandwichScene) : ℚ :=
  s.patty.pos.z - s.plate.pos.z

/-- `bread_2_height = bread_2_pos[:, 2] - plate_pos[:, 2]` (one instance). -/
def bread_2_height (s : SandwichScene) : ℚ :=
  s.bread_slice_2.pos.z - s.plate.pos.z

/-- The XY-alignment gate of `task_done`: each ingredient's planar distance
to the plate center is `< xy_threshold`. -/
def xy_aligned (s : SandwichScene) (xy_threshold : ℚ) : Bool :=
  normLt2 (s.bread_slice_1.pos.x - s.plate.pos.x)
      (s.bread_slice_1.pos.y - s.plate.pos.y) xy_threshold
    && normLt2 (s.cheese_slice.pos.x - s.plate.pos.x)
      (s.cheese_slice.pos.y - s.plate.pos.y) xy_threshold
    && normLt2 (s.patty.pos.x - s.plate.pos.x)
      (s.patty.pos.y - s.plate.pos.y) xy_threshold
    && normLt2 (s.bread_slice_2.pos.x - s.plate.pos.x)
      (s.bread_slice_2.pos.y - s.plate.pos.y) xy_threshold

/-- The vertical-stacking-order gate of `task_done`: the bottom bread is more
than `0.005` above the plate and each later ingredient is strictly higher
than the previous one. -/
def vertical_order (s : SandwichScene) : Bool :=
  decide (bread_1_height s > 5 / 1000
    ∧ cheese_height s > bread_1_height s
    ∧ patty_height s > cheese_height s
    ∧ bread_2_height s > patty_height s)

/-- The hard-coded `velocity_threshold = 0.05  # m/s` of `task_done`. -/
def velocity_threshold : ℚ := 5 / 100

/-- The stability gate of `task_done`: every ingredient's linear-velocity
magnitude is `< velocity_threshold`. -/
def stable (s : SandwichScene) : Bool :=
  normLt3 s.bread_slice_1.vel velocity_threshold
    && normLt3 s.cheese_slice.vel velocity_threshold
    && normLt3 s.patty.vel velocity_threshold
    && normLt3 s.bread_slice_2.vel velocity_threshold

/-- One instance of the non-test-mode branch of `task_done`:
`task_complete = xy_aligned & vertical_order & stable`. -/
def task_done_single (s : SandwichScene) (xy_threshold : ℚ) : Bool :=
  xy_aligned s xy_threshold && vertical_order s && stable s

/-- The stack-success evaluator `task_done` over a batch of instances.
`height_threshold` is a parameter of the Python function that its body never
reads (only the docstring mentions it); it is kept here, unused, to mirror
the source signature.  With `test_mode` the function returns
`torch.ones(num_envs, dtype=torch.bool)`. -/
def task_done (states : List SandwichScene) (height_threshold xy_threshold : ℚ)
    (test_mode : Bool) : List Bool :=
  if test_mode then
    List.replicate states.length true
  else
    states.map (fun s => task_done_single s xy_threshold)

/-- Per-instance snapshot read by `ingredient_grasped`: the end-effector
position `ee_frame.data.target_pos_w[:, 1, :]`, the gripper joint position
`robot.data.joint_pos[:, -1]`, and the four candidate ingredient positions,
each `none` when the scene lookup `env.scene[name]` raises `KeyError`. -/
structure GraspScene where
  ee_pos : Vec3
  gripper_pos : ℚ
  bread_slice_1 : Option Vec3
  bread_slice_2 : Option Vec3
  patty : Option Vec3
  cheese_slice : Option Vec3
  deriving DecidableEq, Repr

/-- The candidate list in the source's iteration order:
`["bread_slice_1", "bread_slice_2", "patty", "cheese_slice"]`. -/
def ingredient_list (s : GraspScene) : List (Option Vec3) :=
  [s.bread_slice_1, s.bread_slice_2, s.patty, s.cheese_slice]

/-- The candidates actually present in the scene, in iteration order. -/
def present_ingredients (s : GraspScene) : List Vec3 :=
  (ingredient_list s).filterMap id

/-- `gripper_closed = gripper_pos < grasp_threshold`. -/
def gripper_closed (s : GraspScene) (grasp_threshold : ℚ) : Bool :=
  decide (s.gripper_pos < grasp_threshold)

/-- The grasp detector `ingredient_grasped` (one instance): starting from
`torch.zeros(..., dtype=torch.bool)`, fold over the candidate ingredients;
an absent ingredient is skipped (`except KeyError: continue`), a present one
contributes `within_distance ∧ gripper_closed` by `logical_or`. -/
def ingredient_grasped (s : GraspScene) (diff_threshold grasp_threshold : ℚ) :
    Bool :=
  (ingredient_list s).foldl
    (fun any_grasped c =>
      match c with
      | none => any_grasped
      | some p =>
        any_grasped
          || (normLt3 (Vec3.sub p s.ee_pos) diff_threshold
            && gripper_closed s grasp_threshold))
    false

/-- The grasp detector over a batch of instances. -/
def ingredient_grasped_batch (states : List GraspScene)
    (diff_threshold grasp_threshold : ℚ) : List Bool :=
  states.map (fun s => ingredient_grasped s diff_threshold grasp_threshold)

/-! ## Camera data viewer (`scripts/tools/view_camera_data.py`)

A frame is a flat list of its pixel values (the `[height, width, channels]`
shape is irrelevant to the per-pixel normalization).  An episode's `obs`
group holds the optional `"wrist"` and `"front"` image sequences; the
archive is the episode list in sorted-key order. -/

/-- An episode: the optional `"wrist"` and `"front"` image-sequence arrays
of its observation group, each a list of frames. -/
structure Episode where
  wrist : Option (List (List ℚ))
  front : Option (List (List ℚ))
  deriving DecidableEq, Repr

/-- `np.max` over a frame's pixels (the `0` seed is never the maximum for
the nonempty, nonnegative pixel data the tool reads). -/
def frameMax (f : List ℚ) : ℚ :=
  f.foldl max 0

/-- `astype(np.uint8)` on one scalar: truncation toward zero followed by
wrapping into `[0, 256)`, returned as a rational pixel value. -/
def to_uint8 (v : ℚ) : ℚ :=
  (((if 0 ≤ v then ⌊v⌋ else ⌈v⌉) % 256 : ℤ) : ℚ)

/-- The range detection and normalization applied to every frame before it
is displayed or written: `if frame.max() <= 1.0: frame = (frame * 255)
.astype(np.uint8)`; frames whose maximum exceeds `1.0` pass through. -/
def normalize_frame (f : List ℚ) : List ℚ :=
  if frameMax f ≤ 1 then f.map (fun v => to_uint8 (v * 255)) else f

/-- Outcome of `display_camera_feeds`: either a printed user-facing error
(and an immediate `return`, so no window is opened and no frame shown), or
a playback of the normalized wrist/front streams. -/
inductive DisplayResult where
  | error (msg : String)
  | playback (wrist front : Option (List (List ℚ)))
  deriving DecidableEq, Repr

/-- `display_camera_feeds`: checks `episode_index >= len(episodes)` and
prints an error; then checks `not has_wrist and not has_front` and prints an
error; otherwise plays the present streams back frame by frame, normalizing
each frame. -/
def display_camera_feeds (a : List Episode) (episode_index : ℕ) :
    DisplayResult :=
  if h : episode_index < a.length then
    let ep := a[episode_index]
    if ep.wrist.isNone && ep.front.isNone then
      .error "No camera data found"
    else
      .playback (ep.wrist.map (fun imgs => imgs.map normalize_frame))
        (ep.front.map (fun imgs => imgs.map normalize_frame))
  else
    .error "Episode not found"

/-- Outcome of `export_camera_data`.  The source has no user-facing error
path at all, so `error` is never produced; `crash` is the uncaught Python
`IndexError` from `episodes[episode_index]`; `finished` records how many
output directories were created (`output_path.mkdir` runs before any stream
check, so it is always at least one) and the normalized frames written. -/
inductive ExportResult where
  | error (msg : String)
  | crash
  | finished (dirs_created : ℕ) (frames_written : List (List ℚ))
  deriving DecidableEq, Repr

/-- `export_camera_data`: indexes `episodes[episode_index]` with no bounds
check (out of range ⟹ uncaught `IndexError`), unconditionally creates the
episode output directory, then for each present camera stream creates its
directory and writes every normalized frame.  An episode with neither
stream completes silently, leaving the created directory as output. -/
def export_camera_data (a : List Episode) (episode_index : ℕ) :
    ExportResult :=
  if h : episode_index < a.length then
    let ep := a[episode_index]
    let wristFrames := match ep.wrist with
      | some imgs => imgs.map normalize_frame
      | none => []
    let frontFrames := match ep.front with
      | some imgs => imgs.map normalize_frame
      | none => []
    let dirs := 1 + (if ep.wrist.isSome then 1 else 0)
      + (if ep.front.isSome then 1 else 0)
    .finished dirs (wristFrames ++ frontFrames)
  else
    .crash

/-- Is a result a reported user-facing error? -/
def DisplayResult.isUserError : DisplayResult → Bool
  | .error _ => true
  | _ => false

/-- Is a result a reported user-facing error (never, in the source)? -/
def ExportResult.isUserError : ExportResult → Bool
  | .error _ => true
  | _ => false

/-! ## Helper lemmas -/

/-- The fold in `ingredient_grasped` computes the OR, over the present
candidates, of (near ∧ gripper closed). -/
theorem ingredient_grasped_eq_any (s : GraspScene)
    (diff_threshold grasp_threshold : ℚ) :
    ingredient_grasped s diff_threshold grasp_threshold
      = (present_ingredients s).any
          (fun p => normLt3 (Vec3.sub p s.ee_pos) diff_threshold
            && gripper_closed s grasp_threshold) := by
  rcases s with ⟨ee, g, b1, b2, pt, ch⟩
  cases b1 <;> cases b2 <;> cases pt <;> cases ch <;>
    simp [ingredient_grasped, present_ingredients, ingredient_list,
      Bool.or_assoc]

/-- The Euclidean comparison `‖v‖ < t` is monotone in the threshold `t`. -/
theorem normLt3_mono {v : Vec3} {t t' : ℚ} (hle : t ≤ t')
    (h : normLt3 v t = true) : normLt3 v t' = true := by
  simp only [normLt3, decide_eq_true_eq] at h ⊢
  obtain ⟨hpos, hlt⟩ := h
  refine ⟨lt_of_lt_of_le hpos hle, lt_of_lt_of_le hlt ?_⟩
  exact pow_le_pow_left₀ hpos.le hle 2

/-- If every pixel of a frame is at most 1, so is the frame maximum. -/
theorem frameMax_le_one {f : List ℚ} (h : ∀ v ∈ f, v ≤ 1) :
    frameMax f ≤ 1 := by
  unfold frameMax
  have key : ∀ (l : List ℚ) (a : ℚ), a ≤ 1 → (∀ v ∈ l, v ≤ 1) →
      l.foldl max a ≤ 1 := by
    intro l
    induction l with
    | nil => intro a ha _; simpa using ha
    | cons x xs ih =>
      intro a ha hl
      simp only [List.foldl_cons]
      exact ih (max a x) (max_le ha (hl x (by simp)))
        (fun v hv => hl v (by simp [hv]))
  exact key f 0 (by norm_num) h

/-! ## Claims -/

/-- C1.  With `test_mode = false`, the batched result of `task_done` is the
same for any two values of `height_threshold` (the parameter is never read);
and the vertical-order gate holds exactly when the bottom bread clears the
fixed `0.005` floor above the plate and the layer heights strictly increase
in stack order. -/
theorem c1_height_threshold_unused :
    (∀ (states : List SandwichScene) (ht ht' xt : ℚ),
      task_done states ht xt false = task_done states ht' xt false)
    ∧ (∀ s : SandwichScene,
      vertical_order s = true
        ↔ (5 / 1000 < bread_1_height s
          ∧ bread_1_height s < cheese_height s
          ∧ cheese_height s < patty_height s
          ∧ patty_height s < bread_2_height s)) := by
  constructor
  · intro states ht ht' xt
    rfl
  · intro s
    simp [vertical_order, gt_iff_lt]

/-- C2.  With `test_mode = true`, `task_done` returns a batch of the same
length as the input in which every instance's result is `true`, whatever
the position, velocity and threshold inputs are. -/
theorem c2_test_mode_all_true (states : List SandwichScene) (ht xt : ℚ) :
    (task_done states ht xt true).length = states.length
    ∧ (task_done states ht xt true).all (fun b => b) = true := by
  constructor
  · simp [task_done]
  · simp [task_done, List.all_eq_true]

/-- C3.  The grasp detector's per-instance result is the logical OR, over
the candidate ingredients present in the scene, of (Euclidean distance from
candidate to end-effector `< diff_threshold` AND gripper closed); absent
candidates are skipped and contribute false. -/
theorem c3_grasp_is_or_over_present (s : GraspScene)
    (diff_threshold grasp_threshold : ℚ) :
    ingredient_grasped s diff_threshold grasp_threshold
      = (present_ingredients s).any
          (fun p => normLt3 (Vec3.sub p s.ee_pos) diff_threshold
            && gripper_closed s grasp_threshold) :=
  ingredient_grasped_eq_any s diff_threshold grasp_threshold

/-- A rigid object at rest on the plate axis at height `z`. -/
def restObj (z : ℚ) : RigidObjectState :=
  ⟨⟨0, 0, z⟩, ⟨0, 0, 0⟩⟩

/-- Spec scenario "stack order violated": plate at the origin, layer heights
`0.015, 0.045, 0.030, 0.060` (cheese and patty swapped), all on the plate
axis and at rest. -/
def scn_swapped : SandwichScene :=
  ⟨restObj 0, restObj (3 / 200), restObj (9 / 200), restObj (3 / 100),
    restObj (3 / 50)⟩

/-- Spec scenario "unstable": correct heights `0.015, 0.030, 0.045, 0.060`,
but the top bread moves with velocity magnitude `0.2` m/s. -/
def scn_unstable : SandwichScene :=
  ⟨restObj 0, restObj (3 / 200), restObj (3 / 100), restObj (9 / 200),
    ⟨⟨0, 0, 3 / 50⟩, ⟨1 / 5, 0, 0⟩⟩⟩

/-- A grasp snapshot with a single candidate 1 m away from the closed
gripper's end-effector. -/
def scn_far : GraspScene :=
  ⟨⟨0, 0, 0⟩, 0, some ⟨1, 0, 0⟩, none, none, none⟩

/-- A grasp snapshot with a candidate exactly at the end-effector but the
gripper open (`gripper_pos = 1`). -/
def scn_open : GraspScene :=
  ⟨⟨0, 0, 0⟩, 1, some ⟨0, 0, 0⟩, none, none, none⟩

/-- C4.  If no present candidate lies within `diff_threshold` Euclidean
distance of the end-effector, the grasp detector returns false, whatever
the gripper joint position is. -/
theorem c4_no_near_candidate_not_grasped (s : GraspScene)
    (diff_threshold grasp_threshold : ℚ)
    (h : ∀ p ∈ present_ingredients s,
      normLt3 (Vec3.sub p s.ee_pos) diff_threshold = false) :
    ingredient_grasped s diff_threshold grasp_threshold = false := by
  rw [ingredient_grasped_eq_any]
  simp only [List.any_eq_false, Bool.and_eq_true, not_and]
  intro p hp hnear
  rw [h p hp] at hnear
  exact absurd hnear (by simp)

/-- Witness for C4 at the concrete snapshot `scn_far`. -/
theorem c4_no_near_candidate_not_grasped_witness :
    (∀ p ∈ present_ingredients scn_far,
      normLt3 (Vec3.sub p scn_far.ee_pos) (1 / 2) = false)
    ∧ ingredient_grasped scn_far (1 / 2) 1 = false := by
  have h : ∀ p ∈ present_ingredients scn_far,
      normLt3 (Vec3.sub p scn_far.ee_pos) (1 / 2) = false := by
    have hpres : present_ingredients scn_far = [⟨1, 0, 0⟩] := rfl
    rw [hpres]
    intro p hp
    rw [List.mem_singleton] at hp
    subst hp
    norm_num [normLt3, sqNorm3, Vec3.sub, scn_far]
  exact ⟨h, c4_no_near_candidate_not_grasped scn_far (1 / 2) 1 h⟩

/-- C5.  If the gripper is open (`gripper_pos ≥ grasp_threshold`), the grasp
detector returns false, whatever the candidate and end-effector positions
are. -/
theorem c5_open_gripper_not_grasped (s : GraspScene)
    (diff_threshold grasp_threshold : ℚ)
    (h : grasp_threshold ≤ s.gripper_pos) :
    ingredient_grasped s diff_threshold grasp_threshold = false := by
  rw [ingredient_grasped_eq_any]
  have hg : gripper_closed s grasp_threshold = false := by
    simp [gripper_closed, not_lt.2 h]
  simp [hg]

/-- Witness for C5 at the concrete snapshot `scn_open`. -/
theorem c5_open_gripper_not_grasped_witness :
    (1 : ℚ) ≤ scn_open.gripper_pos
    ∧ ingredient_grasped scn_open (1 / 2) 1 = false :=
  ⟨by norm_num [scn_open],
    c5_open_gripper_not_grasped scn_open (1 / 2) 1 (by norm_num [scn_open])⟩

/-- C6.  The vertical-order gate holds exactly when, writing `h_i` for the
i-th layer height above the plate, `h_0 > 0.005` and each later height
strictly exceeds the previous one; on the concrete swapped-layer scenario
the other two gates pass, the vertical-order gate fails, and `task_done`
(with the default thresholds `0.02` and `0.05`) returns false for the
instance. -/
theorem c6_vertical_order_gate :
    (∀ s : SandwichScene,
      vertical_order s = true
        ↔ (bread_1_height s > 5 / 1000
          ∧ cheese_height s > bread_1_height s
          ∧ patty_height s > cheese_height s
          ∧ bread_2_height s > patty_height s))
    ∧ xy_aligned scn_swapped (1 / 20) = true
    ∧ stable scn_swapped = true
    ∧ vertical_order scn_swapped = false
    ∧ task_done [scn_swapped] (1 / 50) (1 / 20) false = [false] := by
  refine ⟨fun s => by simp [vertical_order], ?_, ?_, ?_, ?_⟩ <;>
    norm_num [task_done, task_done_single, xy_aligned, vertical_order,
      stable, normLt2, normLt3, sqNorm2, sqNorm3, velocity_threshold,
      bread_1_height, cheese_height, patty_height, bread_2_height,
      scn_swapped, restObj]

/-- C7.  The stability gate holds exactly when every layer's linear-velocity
magnitude is below the fixed constant `0.05` m/s (squared form of the
norm comparison; the gate reads neither `height_threshold` nor
`xy_threshold`); on the concrete scenario with correct positions but the
top bread moving at `0.2` m/s, the position gates pass, the stability gate
fails, and `task_done` returns false for the instance. -/
theorem c7_stability_gate :
    (∀ s : SandwichScene,
      stable s = true
        ↔ (sqNorm3 s.bread_slice_1.vel < velocity_threshold ^ 2
          ∧ sqNorm3 s.cheese_slice.vel < velocity_threshold ^ 2
          ∧ sqNorm3 s.patty.vel < velocity_threshold ^ 2
          ∧ sqNorm3 s.bread_slice_2.vel < velocity_threshold ^ 2))
    ∧ xy_aligned scn_unstable (1 / 20) = true
    ∧ vertical_order scn_unstable = true
    ∧ stable scn_unstable = false
    ∧ task_done [scn_unstable] (1 / 50) (1 / 20) false = [false] := by
  refine ⟨fun s => ?_, ?_, ?_, ?_, ?_⟩
  · simp only [stable, normLt3, Bool.and_eq_true, decide_eq_true_eq,
      velocity_threshold, and_assoc]
    norm_num
  all_goals
    norm_num [task_done, task_done_single, xy_aligned, vertical_order,
      stable, normLt2, normLt3, sqNorm2, sqNorm3, velocity_threshold,
      bread_1_height, cheese_height, patty_height, bread_2_height,
      scn_unstable, restObj]

/-- A grasp snapshot with a candidate at the closed gripper's
end-effector. -/
def scn_near : GraspScene :=
  ⟨⟨0, 0, 0⟩, 0, some ⟨0, 0, 0⟩, none, none, none⟩

/-- A grasp snapshot with no candidate ingredient present in the scene. -/
def scn_empty : GraspScene :=
  ⟨⟨0, 0, 0⟩, 0, none, none, none, none⟩

/-- C10.  The grasp detector is monotone in `diff_threshold`: enlarging the
threshold never turns a grasped instance into a non-grasped one; and with
no candidate ingredient present in the scene it returns false. -/
theorem c10_monotone_in_threshold (s : GraspScene) (d d' g : ℚ) :
    (d ≤ d' → ingredient_grasped s d g = true →
      ingredient_grasped s d' g = true)
    ∧ (s.bread_slice_1 = none → s.bread_slice_2 = none → s.patty = none →
      s.cheese_slice = none → ingredient_grasped s d g = false) := by
  constructor
  · intro hle h
    rw [ingredient_grasped_eq_any] at h ⊢
    rw [List.any_eq_true] at h ⊢
    obtain ⟨p, hp, hcond⟩ := h
    rw [Bool.and_eq_true] at hcond
    refine ⟨p, hp, ?_⟩
    rw [Bool.and_eq_true]
    exact ⟨normLt3_mono hle hcond.1, hcond.2⟩
  · intro h1 h2 h3 h4
    simp [ingredient_grasped, ingredient_list, h1, h2, h3, h4]

/-- Witness for C10: enlarging the threshold from 1 to 2 preserves the
grasp at `scn_near`, and the empty scene `scn_empty` yields false. -/
theorem c10_monotone_in_threshold_witness :
    ((1 : ℚ) ≤ 2 ∧ ingredient_grasped scn_near 1 1 = true
      ∧ ingredient_grasped scn_near 2 1 = true)
    ∧ ingredient_grasped scn_empty 1 1 = false := by
  have hle : (1 : ℚ) ≤ 2 := by norm_num
  have h : ingredient_grasped scn_near 1 1 = true := by
    norm_num [ingredient_grasped, ingredient_list, scn_near, gripper_closed,
      normLt3, sqNorm3, Vec3.sub]
  exact ⟨⟨hle, h, (c10_monotone_in_threshold scn_near 1 2 1).1 hle h⟩,
    (c10_monotone_in_threshold scn_empty 1 1 1).2 rfl rfl rfl rfl⟩

/-- C8 counterexample.  In export mode, an episode containing neither a
`"wrist"` nor a `"front"` stream is not reported as an error at all: the
tool creates the episode output directory (partial output) and finishes
silently with zero frames written, contradicting the claim that both modes
report user-facing errors with no partial output. -/
theorem c8_counterexample_export_silent :
    export_camera_data [⟨none, none⟩] 0 = ExportResult.finished 1 []
    ∧ (export_camera_data [⟨none, none⟩] 0).isUserError = false := by
  constructor <;> rfl

/-- C8 amended.  Display mode reports a user-facing error (and produces no
playback) for an out-of-range episode index and for an episode with neither
camera stream.  Export mode has neither check: an out-of-range index is an
uncaught `IndexError`, and an episode with neither stream completes
silently after creating one output directory. -/
theorem c8_amended_error_handling (a : List Episode) (i : ℕ) :
    (a.length ≤ i →
      display_camera_feeds a i = DisplayResult.error "Episode not found")
    ∧ (a.length ≤ i → export_camera_data a i = ExportResult.crash)
    ∧ (∀ h : i < a.length, (a[i]).wrist = none → (a[i]).front = none →
      display_camera_feeds a i = DisplayResult.error "No camera data found"
      ∧ export_camera_data a i = ExportResult.finished 1 []) := by
  refine ⟨fun hle => ?_, fun hle => ?_, fun h hw hf => ⟨?_, ?_⟩⟩
  · simp [display_camera_feeds, not_lt.2 hle]
  · simp [export_camera_data, not_lt.2 hle]
  · simp [display_camera_feeds, h, hw, hf]
  · simp [export_camera_data, h, hw, hf]

/-- Witness for the amended C8 on a one-episode archive with no streams. -/
theorem c8_amended_error_handling_witness :
    display_camera_feeds [⟨none, none⟩] 1
        = DisplayResult.error "Episode not found"
    ∧ export_camera_data [⟨none, none⟩] 1 = ExportResult.crash
    ∧ display_camera_feeds [⟨none, none⟩] 0
        = DisplayResult.error "No camera data found"
    ∧ export_camera_data [⟨none, none⟩] 0 = ExportResult.finished 1 [] := by
  have hout := c8_amended_error_handling [⟨none, none⟩] 1
  have hin := c8_amended_error_handling [⟨none, none⟩] 0
  exact ⟨hout.1 (by decide), hout.2.1 (by decide),
    (hin.2.2 (by decide) rfl rfl).1, (hin.2.2 (by decide) rfl rfl).2⟩

/-- C9 counterexample.  The frame `[0, 1]` has integer pixel values inside
the `[0, 255]` range, yet it is not passed through unscaled: the tool's
range detection (`frame.max() <= 1.0`) treats it as a `[0, 1]`-float frame
and scales it to `[0, 255]`. -/
theorem c9_counterexample_integer_frame_scaled :
    normalize_frame [0, 1] = [0, 255]
    ∧ normalize_frame [0, 1] ≠ [0, 1] := by
  constructor
  · norm_num [normalize_frame, frameMax, to_uint8, max_def]
  · norm_num [normalize_frame, frameMax, to_uint8, max_def]

/-- C9 amended.  The range detection is by maximum pixel value, not by
dtype: a frame whose maximum exceeds 1 is passed through unchanged (in
particular every `[0, 255]`-integer frame whose maximum exceeds 1), and any
frame with values in `[0, 1]` — including an integer frame of only 0s and
1s — is scaled by 255 and truncated, yielding integer pixel values in
`[0, 255]`. -/
theorem c9_amended_normalization (f : List ℚ) :
    (1 < frameMax f → normalize_frame f = f)
    ∧ ((∀ v ∈ f, 0 ≤ v ∧ v ≤ 1) →
      ∀ w ∈ normalize_frame f, ∃ n : ℕ, n ≤ 255 ∧ w = (n : ℚ)) := by
  constructor
  · intro h
    rw [normalize_frame, if_neg (not_le.2 h)]
  · intro hb w hw
    have hmax : frameMax f ≤ 1 := frameMax_le_one (fun v hv => (hb v hv).2)
    rw [normalize_frame, if_pos hmax, List.mem_map] at hw
    obtain ⟨v, hv, rfl⟩ := hw
    obtain ⟨h0, h1⟩ := hb v hv
    have h0' : (0 : ℚ) ≤ v * 255 := mul_nonneg h0 (by norm_num)
    have hfl0 : (0 : ℤ) ≤ ⌊v * 255⌋ := Int.floor_nonneg.mpr h0'
    have hub : v * 255 ≤ 255 := by nlinarith
    have hfl255 : ⌊v * 255⌋ ≤ 255 :=
      le_trans (Int.floor_mono hub) (by norm_num)
    refine ⟨(⌊v * 255⌋).toNat, by omega, ?_⟩
    rw [to_uint8, if_pos h0', Int.emod_eq_of_lt hfl0 (by omega)]
    exact_mod_cast (congrArg (fun z : ℤ => (z : ℚ))
      (Int.toNat_of_nonneg hfl0)).symm

/-- Witness for the amended C9: the frame `[0, 2]` (max above 1) passes
through unchanged, and the `[0, 1]`-valued frame `[1/2]` is normalized to
integers in `[0, 255]`. -/
theorem c9_amended_normalization_witness :
    ((1 : ℚ) < frameMax [0, 2] ∧ normalize_frame [0, 2] = [0, 2])
    ∧ ((∀ v ∈ ([1 / 2] : List ℚ), 0 ≤ v ∧ v ≤ 1)
      ∧ ∀ w ∈ normalize_frame [1 / 2], ∃ n : ℕ, n ≤ 255 ∧ w = (n : ℚ)) := by
  have h1 : (1 : ℚ) < frameMax [0, 2] := by norm_num [frameMax, max_def]
  have h2 : ∀ v ∈ ([1 / 2] : List ℚ), (0 : ℚ) ≤ v ∧ v ≤ 1 := by norm_num
  exact ⟨⟨h1, (c9_amended_normalization [0, 2]).1 h1⟩,
    ⟨h2, (c9_amended_normalization [1 / 2]).2 h2⟩⟩

end Leisaac
